import Mathlib

/-!
Verification development for the `gangscript` (RealHotGirlScript) semantic
analyzer.  The definitions below are a shallow embedding of
`src/semantics/analyzer.js` and `src/semantics/context.js`.

Modelling conventions:
* JavaScript type-descriptor objects are modelled by `TyObj`.  The built-in
  primitive descriptors (`IntType`, `LongType`, ...) are module-level
  singletons in the source, so reference equality on them is constructor
  equality; composite descriptors (`new ArrayType(...)`, `new SetType(...)`,
  `new TupleType(...)`) are allocated fresh, which we model with an object id
  drawn from a counter in the analysis state.  Plain equality of `TyObj`
  values therefore coincides with JavaScript reference equality (`===`),
  while `tyEq` below is the structural descriptor equality of the spec.
* JavaScript exceptions are modelled with `Except`; mutation of context
  frames is modelled with a store of frames threaded through a state monad
  (`M`), with a context represented by its frame index, mirroring the
  reference semantics of the `Context` objects.
* `src/semantics/check.js` and `src/semantics/builtins.js` are not part of
  the sources available under `src/`; the corresponding definitions are
  modelled from the spec and marked as such in their doc comments.
-/

namespace GangScript

/-- A JavaScript type-descriptor object.  Composite constructors carry the
object id assigned at allocation; the five primitive descriptors are
singletons (`src/semantics/builtins.js` re-exported through the analyzer's
imports of `../ast/int-type` etc.), so they need no id. -/
inductive TyObj : Type
  | int : TyObj
  | long : TyObj
  | str : TyObj
  | bool : TyObj
  | noneT : TyObj
  | arr (oid : Nat) (memberType : Option TyObj) : TyObj
  | set (oid : Nat) (memberType : Option TyObj) : TyObj
  | dict (oid : Nat) (keyType valueType : Option TyObj) : TyObj
  | tuple (oid : Nat) (memberTypes : List (Option TyObj)) : TyObj
  | optionalT (oid : Nat) (memberType : TyObj) : TyObj

mutual

/-- Structural equality of type descriptors, the spec's "two descriptors are
equal iff same variant and structurally equal component types" (object ids
are ignored).  A `none` component (a JavaScript `undefined` field) is equal
only to `none`. -/
def tyEq : TyObj → TyObj → Bool
  | .int, .int => true
  | .long, .long => true
  | .str, .str => true
  | .bool, .bool => true
  | .noneT, .noneT => true
  | .arr _ a, .arr _ b => tyEqOpt a b
  | .set _ a, .set _ b => tyEqOpt a b
  | .dict _ k v, .dict _ k' v' => tyEqOpt k k' && tyEqOpt v v'
  | .tuple _ ms, .tuple _ ns => tyEqList ms ns
  | .optionalT _ a, .optionalT _ b => tyEq a b
  | _, _ => false

/-- Structural equality on possibly-absent component descriptors. -/
def tyEqOpt : Option TyObj → Option TyObj → Bool
  | none, none => true
  | some a, some b => tyEq a b
  | _, _ => false

/-- Structural equality on tuple member-type lists. -/
def tyEqList : List (Option TyObj) → List (Option TyObj) → Bool
  | [], [] => true
  | a :: as, b :: bs => tyEqOpt a b && tyEqList as bs
  | _, _ => false

end

/-- The object id of a descriptor's top-level allocation (primitives, being
singletons, get fixed ids below any fresh allocation).  Two descriptors
produced by distinct `new` expressions always differ here. -/
def TyObj.topOid : TyObj → Nat
  | .int => 0
  | .long => 1
  | .str => 2
  | .bool => 3
  | .noneT => 4
  | .arr oid _ => oid
  | .set oid _ => oid
  | .dict oid _ _ => oid
  | .tuple oid _ => oid
  | .optionalT oid _ => oid

/-- The five primitive singletons of the analyzer. -/
def IntType : TyObj := .int
def LongType : TyObj := .long
def StringType : TyObj := .str
def BooleanType : TyObj := .bool
def NoneType : TyObj := .noneT

/-- Entities stored in a context's `variableDeclarations` /
`classDeclarations` maps: `Variable` objects (constant flag, declared type,
id), registered `FunctionDeclaration` nodes, bound `Parameter` nodes, the
seeded built-in type classes, and the standard-library `FunctionObject`s. -/
inductive Entity : Type
  | variable (constant : Bool) (ty : Option TyObj) (id : String) : Entity
  /-- A `FunctionDeclaration` registered by `context.addVar(this.id, this)`.
  The stored field is the function's declared return type as observed after
  the `leftOnRead` normalization, which happens immediately after
  registration and before any lookup can reach the entity. -/
  | func (id : String) (retType : TyObj) : Entity
  | param (id : String) (ty : Option TyObj) : Entity
  | builtinClass (ty : TyObj) : Entity
  /-- Modelled from the spec: a standard-library `FunctionObject` from the
  missing `src/semantics/builtins.js`. -/
  | stdFun (id : String) : Entity

/-- The declared type a lookup reads off an entity (`ref.type`). -/
def Entity.entType : Entity → Option TyObj
  | .variable _ t _ => t
  | .func _ t => some t
  | .param _ t => t
  | .builtinClass t => some t
  | .stdFun _ => none

/-- A JavaScript `Map` as the analyzer uses it.  `entries` holds the map
data written with `.set`; `props` holds plain object properties written with
bracket assignment (`map[key] = value`), which `Map.has`/`Map.get` never
see.  `Context.INITIAL`'s seeding of standard functions uses bracket
assignment (`context.js` line 116), so those land in `props`. -/
structure JSMap where
  entries : List (String × Entity)
  props : List (String × Entity)

/-- `Map.has`: looks only at the map data. -/
def JSMap.hasKey (m : JSMap) (k : String) : Bool :=
  m.entries.any (fun p => p.1 == k)

/-- `Map.get`: looks only at the map data. -/
def JSMap.getKey (m : JSMap) (k : String) : Option Entity :=
  (m.entries.find? (fun p => p.1 == k)).map Prod.snd

/-- `Map.set`. -/
def JSMap.setKey (m : JSMap) (k : String) (v : Entity) : JSMap :=
  { m with entries := m.entries ++ [(k, v)] }

/-- One `Context` object: parent reference (an index into the frame store),
the current-function reference (modelled by the enclosing function's return
type as observed during body analysis, see `Entity.func`), the `inLoop`
flag, and the two declaration maps. -/
structure Frame where
  parent : Option Nat
  curFun : Option TyObj
  inLoop : Bool
  vars : JSMap
  classes : JSMap

/-- Analysis state: the store of allocated context frames (a context is its
index into this list) and the fresh-object-id counter for composite type
descriptors. -/
structure St where
  frames : List Frame
  ctr : Nat

/-- Errors, classified by the spec's taxonomy (§7): `DeclarationError`,
`TypeError`, `ControlFlowError`.  `dynamic` models a JavaScript runtime
`TypeError` (e.g. calling a method on `undefined`), which also aborts the
pass. -/
inductive Err : Type
  | declaration (msg : String) : Err
  | typeErr (msg : String) : Err
  | controlFlow (msg : String) : Err
  | dynamic (msg : String) : Err
  deriving Repr, DecidableEq

/-- The analysis monad: frame store and allocation counter threaded through
a fail-fast exception monad. -/
abbrev M (α : Type) : Type := StateT St (Except Err) α

/-- Read frame `i` of the store (dereference a context object). -/
def getFrame (i : Nat) : M Frame := fun st =>
  match st.frames[i]? with
  | some f => .ok (f, st)
  | none => .error (.dynamic "dangling context reference")

/-- Overwrite frame `i` of the store (mutate a context object). -/
def setFrame (i : Nat) (f : Frame) : M Unit := fun st =>
  .ok ((), { st with frames := st.frames.set i f })

/-- Allocate a new context frame, returning its reference. -/
def pushFrame (f : Frame) : M Nat := fun st =>
  .ok (st.frames.length, { st with frames := st.frames ++ [f] })

/-- Draw a fresh object id for a composite type-descriptor allocation. -/
def freshOid : M Nat := fun st =>
  .ok (st.ctr, { st with ctr := st.ctr + 1 })

/-- `context.createChildContextForFunctionBody(currentFunction)`: new scope,
parent = self, `inLoop` reset to false, current function replaced.  The
passed value is the function's return type as the body will observe it
(see `Entity.func`). -/
def createChildContextForFunctionBody (i : Nat) (curFun : Option TyObj) : M Nat := do
  let _ ← getFrame i
  pushFrame { parent := some i, curFun := curFun, inLoop := false,
              vars := ⟨[], []⟩, classes := ⟨[], []⟩ }

/-- `context.createChildContextForLoop()`: new scope, parent = self,
current function retained, `inLoop` forced true. -/
def createChildContextForLoop (i : Nat) : M Nat := do
  let fr ← getFrame i
  pushFrame { parent := some i, curFun := fr.curFun, inLoop := true,
              vars := ⟨[], []⟩, classes := ⟨[], []⟩ }

/-- `context.createChildContextForBlock()`: new scope, parent = self, both
current function and `inLoop` retained. -/
def createChildContextForBlock (i : Nat) : M Nat := do
  let fr ← getFrame i
  pushFrame { parent := some i, curFun := fr.curFun, inLoop := fr.inLoop,
              vars := ⟨[], []⟩, classes := ⟨[], []⟩ }

/-- `context.addVar(id, entity)`: throws if the id is already a key of this
scope's own `variableDeclarations` map; otherwise inserts. -/
def addVar (i : Nat) (id : String) (e : Entity) : M Unit := do
  let fr ← getFrame i
  if fr.vars.hasKey id then
    throw (.declaration "Identifier already declared in this scope")
  else
    setFrame i { fr with vars := fr.vars.setKey id e }

/-- `context.addClass(id, entity)`: same, on `classDeclarations`. -/
def addClass (i : Nat) (id : String) (e : Entity) : M Unit := do
  let fr ← getFrame i
  if fr.classes.hasKey id then
    throw (.declaration "Class identifier already declared in this scope")
  else
    setFrame i { fr with classes := fr.classes.setKey id e }

/-- The parent-chain walk shared by `lookupVar` and `lookupClass`.  In the
source the walk follows object references; here parent indices strictly
decrease along any chain built by the child-creation operations above, so a
fuel of one more than the number of allocated frames always suffices and the
fuel case is unreachable for states produced by this development. -/
def lookupChainAux (proj : Frame → JSMap) (frames : List Frame) (id : String) :
    Nat → Nat → Option Entity
  | 0, _ => none
  | fuel + 1, i =>
    match frames[i]? with
    | none => none
    | some fr =>
      if (proj fr).hasKey id then (proj fr).getKey id
      else
        match fr.parent with
        | some p => lookupChainAux proj frames id fuel p
        | none => none

/-- `context.lookupVar(id)`: walk self then the parent chain outward over
the `variableDeclarations` maps; throws if exhausted without a match. -/
def lookupVar (i : Nat) (id : String) : M Entity := fun st =>
  match lookupChainAux (fun fr => fr.vars) st.frames id (st.frames.length + 1) i with
  | some e => .ok (e, st)
  | none => .error (.declaration ("Identifier " ++ id ++ " has not been declared"))

/-- `context.lookupClass(id)`: the same walk over `classDeclarations`. -/
def lookupClass (i : Nat) (id : String) : M Entity := fun st =>
  match lookupChainAux (fun fr => fr.classes) st.frames id (st.frames.length + 1) i with
  | some e => .ok (e, st)
  | none => .error (.declaration ("Identifier " ++ id ++ " has not been declared"))

/-! ## Syntax-tree nodes

Each expression node carries its mutable `type` field (`attachedType`),
absent (`none`) as delivered by the parser and written by the analysis
rules.  Only the node kinds the claims are about are embedded. -/

/-- A function's declared return type: the `leftOnRead` void marker or a
type descriptor. -/
inductive RetTy : Type
  | leftOnRead : RetTy
  | ty (t : TyObj) : RetTy

mutual

inductive Expr : Type
  | stringLit (attachedType : Option TyObj) : Expr
  | noneLit (attachedType : Option TyObj) : Expr
  | boolLit (value : Bool) (attachedType : Option TyObj) : Expr
  | numLit (value : Int) (attachedType : Option TyObj) : Expr
  | ident (id : String) (attachedType : Option TyObj) : Expr
  | unary (op : String) (operand : Expr) (attachedType : Option TyObj) : Expr
  | tupleE (expressions : List Expr) (attachedType : Option TyObj) : Expr
  | arrayE (expression : List Expr) (attachedType : Option TyObj) : Expr
  /-- `SubscriptedExpression`: the source reads `this.varexp.id`, so the
  base is an identifier node, kept here as its id string. -/
  | subscripted (varexpId : String) (subscript : Expr)
      (attachedType : Option TyObj) : Expr

inductive Stmt : Type
  | print (expression : Expr) : Stmt
  /-- `ReturnStatement`: `expression` is absent for a bare `return`;
  `rtype` is the node's own `type` property, which no parser rule or
  analysis rule ever sets (the spec gives Return only an expression). -/
  | ret (expression : Option Expr) (rtype : Option String) : Stmt
  | brk : Stmt
  | cont : Stmt
  | funDecl (id : String) (params : List Param) (retType : RetTy)
      (body : Block) : Stmt
  | switch (expression : Expr) (cases : List SCase)
      (alternate : Option DCase) : Stmt

inductive Block : Type
  | mk (statements : List Stmt) : Block

inductive SCase : Type
  | mk (expression : Expr) (body : Block) : SCase

inductive DCase : Type
  | mk (body : Block) : DCase

inductive Param : Type
  | mk (id : String) (ty : Option TyObj) (expression : Option Expr) : Param

end

/-- The `type` field attached to an expression node. -/
def Expr.typeOf : Expr → Option TyObj
  | .stringLit t => t
  | .noneLit t => t
  | .boolLit _ t => t
  | .numLit _ t => t
  | .ident _ t => t
  | .unary _ _ t => t
  | .tupleE _ t => t
  | .arrayE _ t => t
  | .subscripted _ _ t => t

/-! ## Checks

`src/semantics/check.js` is not under `src/`; the check functions below are
modelled from the spec (§4.1, §4.3, §7), with the error kinds taken from the
spec's taxonomy.  Each inspects the `type` field of an already-analyzed node
(an absent type never matches a required one, as in JavaScript where
`undefined !== IntType`). -/

/-- Whether a node's `type` field holds the Boolean descriptor. -/
def isBooleanType : Option TyObj → Bool
  | some .bool => true
  | _ => false

/-- Whether a node's `type` field holds the Integer descriptor. -/
def isIntegerType : Option TyObj → Bool
  | some .int => true
  | _ => false

/-- Modelled from the spec: `check.isBoolean(expression, msg)` — the
expression's type must be Boolean. -/
def checkIsBoolean (e : Expr) (msg : String) : M Unit :=
  if isBooleanType e.typeOf then pure () else throw (.typeErr msg)

/-- Modelled from the spec: `check.isInteger(expression)` — the
expression's type must be Integer. -/
def checkIsInteger (e : Expr) (msg : String) : M Unit :=
  if isIntegerType e.typeOf then pure () else throw (.typeErr msg)

/-- Modelled from the spec: `check.inLoop(context, msg)` — break/continue
are legal only when the context's `inLoop` flag is set (§7 classifies the
failure as a ControlFlowError). -/
def checkInLoop (i : Nat) (msg : String) : M Unit := do
  let fr ← getFrame i
  if fr.inLoop then pure () else throw (.controlFlow msg)

/-- Modelled from the spec: `check.inFunction(context, msg)` — return is
legal only when the context carries a current function. -/
def checkInFunction (i : Nat) (msg : String) : M Unit := do
  let fr ← getFrame i
  match fr.curFun with
  | some _ => pure ()
  | none => throw (.controlFlow msg)

/-- Modelled from the spec (§3): assignability is identity of type, or a
`Nullable<T>` target accepting a bare `T` or the null sentinel. -/
def assignable (s t : TyObj) : Bool :=
  tyEq s t ||
    match t with
    | .optionalT _ u => tyEq s u || tyEq s NoneType
    | _ => false

/-- Modelled from the spec: `check.isAssignableTo(expression, type)` — the
expression's type must be assignable to the target type; an absent type on
either side fails. -/
def checkIsAssignableTo (e : Expr) (target : Option TyObj) : M Unit :=
  match e.typeOf, target with
  | some s, some t =>
      if assignable s t then pure ()
      else throw (.typeErr "Expression not assignable to target type")
  | _, _ => throw (.typeErr "Expression not assignable to target type")

/-- Modelled from the spec: `check.isNotSubscriptable(entity)` — the
looked-up base must have a subscriptable collection type (Array, Set, Dict
or Tuple). -/
def checkIsNotSubscriptable (ent : Entity) : M Unit :=
  match ent.entType with
  | some (.arr _ _) => pure ()
  | some (.set _ _) => pure ()
  | some (.dict _ _ _) => pure ()
  | some (.tuple _ _) => pure ()
  | _ => throw (.typeErr "Base expression is not a subscriptable collection")

/-- JavaScript reference equality on the values a node's `type` field can
hold.  Under the allocation discipline of this development (fresh object
ids from the state counter, fixed ids for the primitive singletons) two
descriptors are the same object exactly when their top-level object ids
agree; `undefined` equals `undefined`. -/
def refEqOpt : Option TyObj → Option TyObj → Bool
  | none, none => true
  | some a, some b => a.topOid == b.topOid
  | _, _ => false

/-- `Set.prototype.add` on member types: insert unless an element equal by
reference (SameValueZero on objects) is present, keeping insertion order. -/
def jsSetAdd (l : List (Option TyObj)) (x : Option TyObj) : List (Option TyObj) :=
  if l.any (fun y => refEqOpt y x) then l else l ++ [x]

/-- The tail-element checks of `ArrayExpression.prototype.analyze`: every
element after the first must be assignable to the inferred member type. -/
def checkElementsAssignable (es : List Expr) (target : Option TyObj) : M Unit :=
  match es with
  | [] => pure ()
  | e :: rest => do
      checkIsAssignableTo e target
      checkElementsAssignable rest target

/-- `this.varexp.analyze(context)` on a looked-up declaration entity
(`SubscriptedExpression.prototype.analyze`, line 477): `Variable` entities
have no `analyze` rule attached, so the call is a dynamic failure.  The
branch is unreachable in this development: the index-type check on line 476
runs before the index is analyzed and therefore always throws first. -/
def entityAnalyze : Entity → M Unit
  | _ => throw (.dynamic "varexp.analyze is not a function")

/-! ## The analysis pass

One rule per node kind, mirroring `src/semantics/analyzer.js`.  Each rule
returns the node with its mutated fields (attached types, analyzed
children). -/

mutual

def analyzeExpr (ctx : Nat) : Expr → M Expr
  -- StringLiteral / NoneLiteral / BooleanLiteral / NumericLiteral (59-73)
  | .stringLit _ => pure (.stringLit (some StringType))
  | .noneLit _ => pure (.noneLit (some NoneType))
  | .boolLit v _ => pure (.boolLit v (some BooleanType))
  | .numLit v _ => pure (.numLit v (some IntType))
  -- IdentifierExpression (343-351): this.ref = lookupVar; this.type = ref.type
  | .ident id _ => do
      let ref ← lookupVar ctx id
      pure (.ident id ref.entType)
  -- UnaryExpression (501-519); the source's try/catch around the pure
  -- isInteger/isLong checks is written as a case split on the operand type
  | .unary op operand _ => do
      let operand' ← analyzeExpr ctx operand
      if op == "BANGENERGY" then do
        checkIsBoolean operand' "Operand of BANGENERGY is not a boolean"
        pure (.unary op operand' (some BooleanType))
      else if op == "-" || op == "+" then
        match operand'.typeOf with
        | some .int => pure (.unary op operand' (some IntType))
        | some .long => pure (.unary op operand' (some LongType))
        | _ => throw (.typeErr "Not an IntType")
      else
        -- no other operator class sets a type
        pure (.unary op operand' none)
  -- TupleExpression (485-499): a JS Set collapses member types by object
  -- identity; an empty literal gets `new SetType(NoneType)`
  | .tupleE exprs _ =>
      match exprs with
      | _ :: _ => do
          let exprs' ← analyzeExprList ctx exprs
          let memTypes := exprs'.foldl (fun acc m => jsSetAdd acc m.typeOf) []
          let oid ← freshOid
          pure (.tupleE exprs' (some (.tuple oid memTypes)))
      | [] => do
          let oid ← freshOid
          pure (.tupleE [] (some (.set oid (some NoneType))))
  -- ArrayExpression (80-90)
  | .arrayE exprs _ => do
      let exprs' ← analyzeExprList ctx exprs
      match exprs' with
      | e0 :: rest => do
          let oid ← freshOid
          checkElementsAssignable rest e0.typeOf
          pure (.arrayE exprs' (some (.arr oid e0.typeOf)))
      | [] => do
          let oid ← freshOid
          pure (.arrayE [] (some (.arr oid (some NoneType))))
  -- SubscriptedExpression (465-479): note the index-type check runs
  -- before the index expression is analyzed, and no type is attached
  | .subscripted varexpId subscript _ => do
      let ent ← lookupVar ctx varexpId
      checkIsNotSubscriptable ent
      checkIsInteger subscript "Subscript is not an integer"
      entityAnalyze ent
      let subscript' ← analyzeExpr ctx subscript
      pure (.subscripted varexpId subscript' none)

def analyzeExprList (ctx : Nat) : List Expr → M (List Expr)
  | [] => pure []
  | e :: es => do
      let e' ← analyzeExpr ctx e
      let es' ← analyzeExprList ctx es
      pure (e' :: es')

def analyzeStmt (ctx : Nat) : Stmt → M Stmt
  -- PrintStatement (379-382): only logs; the analysis of the argument
  -- expression is commented out, so the argument is left untouched
  | .print e => pure (.print e)
  -- ReturnStatement (408-420)
  | .ret exprOpt rtype =>
      match exprOpt with
      | none =>
          -- this.expression.analyze(context) on an absent expression
          throw (.dynamic "cannot read analyze of undefined expression")
      | some e => do
          let e' ← analyzeExpr ctx e
          -- if (this.type === "leftOnRead"): the Return node's own type field
          if rtype == some "leftOnRead" then
            throw (.controlFlow "Void functions cannot have return statements")
          else do
            checkInFunction ctx "Return statement not in function"
            let fr ← getFrame ctx
            checkIsAssignableTo e' fr.curFun
            pure (.ret (some e') rtype)
  -- BreakStatement (221-226)
  | .brk => do
      checkInLoop ctx "GTFO💩"
      let fr ← getFrame ctx
      if !fr.inLoop then
        throw (.controlFlow "Break outside of loop")
      else
        pure .brk
  -- ContinueStatement (277-279)
  | .cont => do
      checkInLoop ctx "keepItPushin"
      pure .cont
  -- FunctionDeclaration (325-332): the body context is created with `this`
  -- as current function; the `leftOnRead` normalization on line 330 happens
  -- before the body is analyzed and is observed through the shared
  -- reference, modelled by passing the normalized return type
  | .funDecl id params retType body => do
      let normal := match retType with | .leftOnRead => NoneType | .ty t => t
      let bodyCtx ← createChildContextForFunctionBody ctx (some normal)
      let params' ← analyzeParamList bodyCtx params
      addVar ctx id (.func id normal)
      let body' ← analyzeBlock bodyCtx body
      pure (.funDecl id params' (.ty normal) body')
  -- SwitchStatement (452-463): the scrutinee and each case are analyzed in
  -- the current context; the alternate is wrapped in a fresh DefaultCase
  -- but never analyzed
  | .switch e cases alternate => do
      let e' ← analyzeExpr ctx e
      let cases' ← analyzeCaseList ctx cases
      pure (.switch e' cases' alternate)

def analyzeStmtList (ctx : Nat) : List Stmt → M (List Stmt)
  | [] => pure []
  | s :: ss => do
      let s' ← analyzeStmt ctx s
      let ss' ← analyzeStmtList ctx ss
      pure (s' :: ss')

-- Block (215-219)
def analyzeBlock (ctx : Nat) : Block → M Block
  | .mk stmts => do
      let stmts' ← analyzeStmtList ctx stmts
      pure (.mk stmts')

-- Case (238-242): guard analyzed, must be Boolean, body analyzed in the
-- same context
def analyzeCase (ctx : Nat) : SCase → M SCase
  | .mk e b => do
      let e' ← analyzeExpr ctx e
      checkIsBoolean e' "Expression for switch statement case"
      let b' ← analyzeBlock ctx b
      pure (.mk e' b')

def analyzeCaseList (ctx : Nat) : List SCase → M (List SCase)
  | [] => pure []
  | c :: cs => do
      let c' ← analyzeCase ctx c
      let cs' ← analyzeCaseList ctx cs
      pure (c' :: cs')

-- DefaultCase (281-283); defined on the prototype but never invoked by
-- SwitchStatement.prototype.analyze
def analyzeDefaultCase (ctx : Nat) : DCase → M DCase
  | .mk b => do
      let b' ← analyzeBlock ctx b
      pure (.mk b')

-- Parameter (393-400)
def analyzeParam (ctx : Nat) : Param → M Param
  | .mk id ty exprOpt =>
      match exprOpt with
      | some e => do
          let e' ← analyzeExpr ctx e
          addVar ctx id (.param id ty)
          pure (.mk id ty (some e'))
      | none => do
          addVar ctx id (.param id ty)
          pure (.mk id ty none)

def analyzeParamList (ctx : Nat) : List Param → M (List Param)
  | [] => pure []
  | p :: ps => do
      let p' ← analyzeParam ctx p
      let ps' ← analyzeParamList ctx ps
      pure (p' :: ps')

end

/-! ## The seeded root context (`Context.INITIAL`) -/

/-- Modelled from the spec: the standard-library function list of the
missing `src/semantics/builtins.js`.  Its exact contents are unknown; the
claims are settled for an arbitrary list (see `initStateWith`), with this
representative used as the concrete instance. -/
def standardFunctions : List String := ["stdlibFunction"]

/-- The five built-in type descriptors seeded as classes
(`context.js` lines 118-120). -/
def builtinTypes : List TyObj :=
  [IntType, LongType, StringType, BooleanType, NoneType]

/-- Modelled from the spec: the source-language names of the built-in
primitive types (the `name` fields of the descriptors exported by the
missing `builtins.js`); any five distinct names settle the claims. -/
def builtinTypeName : TyObj → String
  | .int => "digitz"
  | .long => "longz"
  | .str => "wordz"
  | .bool => "boolz"
  | .noneT => "nonez"
  | _ => ""

/-- The root frame after the seeding of `context.js` lines 114-120, for a
given standard-function list: the standard functions are stored with
bracket assignment (`variableDeclarations[f.id] = f`, line 116), i.e. as
plain object properties invisible to `Map.has`/`Map.get`, while the
built-in types are stored with `classDeclarations.set` (line 119). -/
def initialFrameWith (fns : List String) : Frame :=
  { parent := none, curFun := none, inLoop := false,
    vars := ⟨[], fns.map (fun s => (s, Entity.stdFun s))⟩,
    classes := builtinTypes.foldl
      (fun m t => m.setKey (builtinTypeName t) (.builtinClass t)) ⟨[], []⟩ }

/-- The analysis entry state for a given standard-function list:
`Context.INITIAL` is the only allocated frame. -/
def initStateWith (fns : List String) : St :=
  { frames := [initialFrameWith fns], ctr := 100 }

/-- The analysis entry state with the representative standard-function
list. -/
def initState : St := initStateWith standardFunctions

/-- The `Context.INITIAL` reference: frame 0 of the entry state. -/
def rootCtx : Nat := 0

/-- `module.exports = function (program) { program.analyze(Context.INITIAL) }`
together with `Program.prototype.analyze` (402-406): every top-level
statement is analyzed in the root context. -/
def analyzeProgram (stmts : List Stmt) : Except Err (List Stmt × St) :=
  (analyzeStmtList rootCtx stmts).run initState

/-- Whether an analysis result is a normal completion. -/
def resultOk {α : Type} : Except Err α → Bool
  | .ok _ => true
  | .error _ => false

/-- The error of a failed analysis result, if any. -/
def errOf {α : Type} : Except Err α → Option Err
  | .ok _ => none
  | .error e => some e

/-! ## Settled claims -/

/-- C1 counterexample: a whole program consisting of one print statement is
accepted by the analysis pass, yet its argument expression comes out with
no type descriptor attached (`PrintStatement.prototype.analyze` only logs;
the analysis of its argument is commented out, analyzer.js line 381) — the
argument here is even an undeclared identifier, which analysis of any
reached expression would reject. -/
theorem c1_counterexample_print_argument_untyped :
    analyzeProgram [.print (.ident "x" none)] =
      .ok ([.print (.ident "x" none)], initState) ∧
    (Expr.ident "x" none).typeOf = none :=
  ⟨rfl, rfl⟩

/-- C1 as amended: analyzing a print statement always completes and returns
the argument expression exactly as the parser delivered it — unanalyzed,
with no type descriptor attached — in any context and from any state,
while the operand and result of a unary expression do each receive exactly
one type descriptor. -/
theorem c1_print_statement_leaves_argument_unanalyzed
    (ctx : Nat) (e : Expr) (st : St) :
    (analyzeStmt ctx (.print e)).run st = .ok (.print e, st) ∧
    (analyzeExpr rootCtx (.unary "-" (.numLit 2 none) none)).run initState =
      .ok (.unary "-" (.numLit 2 (some IntType)) (some IntType), initState) ∧
    (analyzeExpr rootCtx
        (.unary "BANGENERGY" (.boolLit true none) none)).run initState =
      .ok (.unary "BANGENERGY" (.boolLit true (some BooleanType))
        (some BooleanType), initState) :=
  ⟨rfl, rfl, rfl⟩

/-- C2: the claim that a Return carrying an expression inside a
`leftOnRead` (void) function fails with a ControlFlowError does not hold:
the dedicated check reads the Return node's own `type` field (never
`"leftOnRead"`), so it is dead; a void function returning a None-typed
expression is accepted outright, and one returning an Integer fails only
through the return-type assignability check, a TypeError. -/
theorem c2_void_return_with_value_accepted :
    resultOk ((analyzeStmt rootCtx (.funDecl "f" [] .leftOnRead
        (.mk [.ret (some (.noneLit none)) none]))).run initState) = true ∧
    errOf ((analyzeStmt rootCtx (.funDecl "g" [] .leftOnRead
        (.mk [.ret (some (.numLit 5 none)) none]))).run initState) =
      some (.typeErr "Expression not assignable to target type") :=
  ⟨rfl, rfl⟩

/-- C3: after the seeding of `Context.INITIAL`, `lookupVar` fails for every
identifier whatsoever — in particular for every standard-library function
name, whichever functions the missing `builtins.js` exports — because the
seeding writes them with bracket assignment on the `Map`
(`variableDeclarations[f.id] = f`, context.js line 116), which stores a
plain object property that `Map.has` never sees; `lookupClass` succeeds for
each built-in primitive type name as claimed (they are seeded with
`classDeclarations.set`, line 119). -/
theorem c3_standard_functions_not_found_by_lookup :
    (∀ (fns : List String) (s : String),
      (lookupVar rootCtx s).run (initStateWith fns) =
        .error (.declaration ("Identifier " ++ s ++ " has not been declared"))) ∧
    (∀ fns : List String,
      resultOk ((lookupClass rootCtx "digitz").run (initStateWith fns)) = true ∧
      resultOk ((lookupClass rootCtx "longz").run (initStateWith fns)) = true ∧
      resultOk ((lookupClass rootCtx "wordz").run (initStateWith fns)) = true ∧
      resultOk ((lookupClass rootCtx "boolz").run (initStateWith fns)) = true ∧
      resultOk ((lookupClass rootCtx "nonez").run (initStateWith fns)) = true) :=
  ⟨fun _ _ => rfl, fun _ => ⟨rfl, rfl, rfl, rfl, rfl⟩⟩

/-- C4 counterexample: a switch statement whose default case's body
contains a semantic violation — a break statement in a context whose
`inLoop` flag is false, which by itself aborts analysis (second conjunct) —
is nevertheless analyzed to normal completion, refuting the claim that the
default case's body is analyzed as unconditionally reachable. -/
theorem c4_default_violation_not_detected :
    (analyzeStmt rootCtx (.switch (.boolLit true none) []
        (some (.mk (.mk [.brk]))))).run initState =
      .ok (.switch (.boolLit true (some BooleanType)) []
        (some (.mk (.mk [.brk]))), initState) ∧
    (analyzeStmt rootCtx .brk).run initState =
      .error (.controlFlow "GTFO💩") :=
  ⟨rfl, rfl⟩

/-- C4 as amended: `SwitchStatement.prototype.analyze` analyzes the
scrutinee and the cases but never the default case's body — it only wraps
the alternate in a fresh `DefaultCase` node — so the analysis result of a
switch does not depend on what the default body contains. -/
theorem c4_switch_ignores_default_body (b : Block) :
    (analyzeStmt rootCtx (.switch (.boolLit true none) []
        (some (.mk b)))).run initState =
      .ok (.switch (.boolLit true (some BooleanType)) [] (some (.mk b)),
        initState) :=
  rfl

/-- C5: declaring a variable (or class) whose name is already a key of the
same scope's own table fails with the duplicate-declaration error, a fresh
name in that table is accepted, and the same name declared in a freshly
created child scope (shadowing) always succeeds, its table being empty. -/
theorem c5_duplicate_rejected_shadowing_allowed
    (st : St) (i : Nat) (fr : Frame) (name : String) (e e' : Entity)
    (h : st.frames[i]? = some fr) :
    (fr.vars.hasKey name = true →
      (addVar i name e).run st =
        .error (.declaration "Identifier already declared in this scope")) ∧
    (fr.vars.hasKey name = false →
      resultOk ((addVar i name e).run st) = true) ∧
    (fr.classes.hasKey name = true →
      (addClass i name e).run st =
        .error (.declaration "Class identifier already declared in this scope")) ∧
    (fr.classes.hasKey name = false →
      resultOk ((addClass i name e).run st) = true) ∧
    resultOk ((do
      let c ← createChildContextForBlock i
      addVar c name e' : M Unit).run st) = true := by
  refine ⟨fun hk => ?_, fun hk => ?_, fun hk => ?_, fun hk => ?_, ?_⟩
  · simp [addVar, getFrame, setFrame, h, hk, resultOk, StateT.run, bind,
      StateT.bind, Except.bind, throw, throwThe, MonadExceptOf.throw,
      StateT.lift, pure, StateT.pure, Except.pure]
  · simp [addVar, getFrame, setFrame, h, hk, resultOk, StateT.run, bind,
      StateT.bind, Except.bind, throw, throwThe, MonadExceptOf.throw,
      StateT.lift, pure, StateT.pure, Except.pure]
  · simp [addClass, getFrame, setFrame, h, hk, resultOk, StateT.run, bind,
      StateT.bind, Except.bind, throw, throwThe, MonadExceptOf.throw,
      StateT.lift, pure, StateT.pure, Except.pure]
  · simp [addClass, getFrame, setFrame, h, hk, resultOk, StateT.run, bind,
      StateT.bind, Except.bind, throw, throwThe, MonadExceptOf.throw,
      StateT.lift, pure, StateT.pure, Except.pure]
  · simp [addVar, createChildContextForBlock, pushFrame, getFrame, setFrame,
      h, resultOk, StateT.run, bind, StateT.bind, Except.bind, throw,
      throwThe, MonadExceptOf.throw, StateT.lift, pure, StateT.pure,
      Except.pure, JSMap.hasKey, List.getElem?_concat_length]

/-- C5 witness: in the root state, redeclaring the name `a` after a first
declaration in the same scope fails, while declaring it in a fresh child
scope of the root succeeds. -/
theorem c5_witness :
    ((initialFrameWith standardFunctions).vars.hasKey "a" = false →
      resultOk ((addVar rootCtx "a"
        (.variable false (some IntType) "a")).run initState) = true) ∧
    resultOk ((do
      let c ← createChildContextForBlock rootCtx
      addVar c "a" (.variable false (some IntType) "a") : M Unit).run
        initState) = true :=
  ⟨(c5_duplicate_rejected_shadowing_allowed initState rootCtx _ "a"
      (.variable false (some IntType) "a")
      (.variable false (some IntType) "a") rfl).2.1,
   (c5_duplicate_rejected_shadowing_allowed initState rootCtx _ "a"
      (.variable false (some IntType) "a")
      (.variable false (some IntType) "a") rfl).2.2.2.2⟩

/-- C6: analyzing a break or continue statement succeeds exactly when the
analyzing context's `inLoop` flag is true; a loop-body child context has
the flag forced true, a block child context inherits it, and a
function-body child context resets it to false.  The closing conjuncts run
the claim's scenarios: break in a loop context succeeds, continue in a
block context derived from a loop context succeeds, and break in a
function-body context created inside a loop context fails. -/
theorem c6_break_continue_iff_in_loop
    (st : St) (i : Nat) (fr : Frame) (h : st.frames[i]? = some fr) :
    (resultOk ((analyzeStmt i .brk).run st) = fr.inLoop ∧
     resultOk ((analyzeStmt i .cont).run st) = fr.inLoop) ∧
    ((createChildContextForLoop i).run st =
       .ok (st.frames.length,
         { st with frames := st.frames ++
             [⟨some i, fr.curFun, true, ⟨[], []⟩, ⟨[], []⟩⟩] }) ∧
     (createChildContextForBlock i).run st =
       .ok (st.frames.length,
         { st with frames := st.frames ++
             [⟨some i, fr.curFun, fr.inLoop, ⟨[], []⟩, ⟨[], []⟩⟩] }) ∧
     (∀ cf : Option TyObj,
       (createChildContextForFunctionBody i cf).run st =
         .ok (st.frames.length,
           { st with frames := st.frames ++
               [⟨some i, cf, false, ⟨[], []⟩, ⟨[], []⟩⟩] }))) ∧
    (resultOk ((do
       let c ← createChildContextForLoop rootCtx
       analyzeStmt c .brk : M Stmt).run initState) = true ∧
     resultOk ((do
       let c ← createChildContextForLoop rootCtx
       let b ← createChildContextForBlock c
       analyzeStmt b .cont : M Stmt).run initState) = true ∧
     errOf ((do
       let c ← createChildContextForLoop rootCtx
       let f ← createChildContextForFunctionBody c (some NoneType)
       analyzeStmt f .brk : M Stmt).run initState) =
       some (.controlFlow "GTFO💩")) := by
  refine ⟨⟨?_, ?_⟩, ⟨?_, ?_, fun cf => ?_⟩, ⟨rfl, rfl, rfl⟩⟩
  · cases hl : fr.inLoop <;>
      simp [analyzeStmt, checkInLoop, getFrame, h, hl, resultOk, StateT.run,
        bind, StateT.bind, Except.bind, throw, throwThe, MonadExceptOf.throw,
        StateT.lift, pure, StateT.pure, Except.pure]
  · cases hl : fr.inLoop <;>
      simp [analyzeStmt, checkInLoop, getFrame, h, hl, resultOk, StateT.run,
        bind, StateT.bind, Except.bind, throw, throwThe, MonadExceptOf.throw,
        StateT.lift, pure, StateT.pure, Except.pure]
  · simp [createChildContextForLoop, pushFrame, getFrame, h, StateT.run,
      bind, StateT.bind, Except.bind, pure, StateT.pure, Except.pure]
  · simp [createChildContextForBlock, pushFrame, getFrame, h, StateT.run,
      bind, StateT.bind, Except.bind, pure, StateT.pure, Except.pure]
  · simp [createChildContextForFunctionBody, pushFrame, getFrame, h,
      StateT.run, bind, StateT.bind, Except.bind, pure, StateT.pure,
      Except.pure]

/-- C6 witness: in the root state (whose root frame has `inLoop` false),
break does not succeed, matching the flag. -/
theorem c6_witness :
    resultOk ((analyzeStmt rootCtx Stmt.brk).run initState) =
      (initialFrameWith standardFunctions).inLoop :=
  (c6_break_continue_iff_in_loop initState rootCtx
    (initialFrameWith standardFunctions) rfl).1.1

/-- C7: the switch scrutinee is analyzed with no constraint on its type
(first conjunct: whatever type the scrutinee analysis produced, the switch
completes when there are no cases), and each case's own guard expression
must type to Boolean — a guard of any other type aborts analysis with the
case-guard TypeError, before any comparison with the scrutinee could take
place (second conjunct). -/
theorem c7_scrutinee_unconstrained_case_guard_boolean
    (ctx : Nat) (st st1 st2 : St) (e g e1 g1 : Expr)
    (b : Block) (rest : List SCase) (alt : Option DCase)
    (he : (analyzeExpr ctx e).run st = .ok (e1, st1)) :
    ((analyzeStmt ctx (.switch e [] none)).run st =
      .ok (.switch e1 [] none, st1)) ∧
    ((analyzeExpr ctx g).run st1 = .ok (g1, st2) →
      isBooleanType g1.typeOf = false →
      (analyzeStmt ctx (.switch e (.mk g b :: rest) alt)).run st =
        .error (.typeErr "Expression for switch statement case")) := by
  have he' : analyzeExpr ctx e st = .ok (e1, st1) := he
  constructor
  · simp [analyzeStmt, analyzeCaseList, he', StateT.run, bind, StateT.bind,
      Except.bind, pure, StateT.pure, Except.pure]
  · intro hg hb
    have hg' : analyzeExpr ctx g st1 = .ok (g1, st2) := hg
    simp [analyzeStmt, analyzeCaseList, analyzeCase, checkIsBoolean, he',
      hg', hb, StateT.run, bind, StateT.bind, Except.bind, throw, throwThe,
      MonadExceptOf.throw, StateT.lift, pure, StateT.pure, Except.pure]

/-- C7 witness: a switch over a String scrutinee with no cases is accepted,
and a case whose guard is an Integer literal makes the same switch fail. -/
theorem c7_witness :
    (analyzeStmt rootCtx (.switch (.stringLit none) [] none)).run initState =
      .ok (.switch (.stringLit (some StringType)) [] none, initState) ∧
    (analyzeStmt rootCtx (.switch (.stringLit none)
        [.mk (.numLit 1 none) (.mk [])] none)).run initState =
      .error (.typeErr "Expression for switch statement case") :=
  ⟨(c7_scrutinee_unconstrained_case_guard_boolean rootCtx initState initState
      initState (.stringLit none) (.numLit 1 none)
      (.stringLit (some StringType)) (.numLit 1 (some IntType))
      (.mk []) [] none rfl).1,
   (c7_scrutinee_unconstrained_case_guard_boolean rootCtx initState initState
      initState (.stringLit none) (.numLit 1 none)
      (.stringLit (some StringType)) (.numLit 1 (some IntType))
      (.mk []) [] none rfl).2 rfl rfl⟩

/-- C8 counterexample: a tuple literal of two singleton array literals is
typed with a member-type list holding two entries that are equal as type
descriptors (structurally equal, `tyEq`) yet distinct objects (different
allocation ids), refuting the claim that any two elements of equal type
contribute one entry and that the member-type list has no two equal
types. -/
theorem c8_structurally_equal_members_not_collapsed :
    (analyzeExpr rootCtx (.tupleE
        [.arrayE [.numLit 1 none] none, .arrayE [.numLit 2 none] none]
        none)).run initState =
      .ok (.tupleE
        [.arrayE [.numLit 1 (some IntType)] (some (.arr 100 (some .int))),
         .arrayE [.numLit 2 (some IntType)] (some (.arr 101 (some .int)))]
        (some (.tuple 102
          [some (.arr 100 (some .int)), some (.arr 101 (some .int))])),
        { initState with ctr := 103 }) ∧
    tyEq (.arr 100 (some .int)) (.arr 101 (some .int)) = true ∧
    TyObj.topOid (.arr 100 (some .int)) ≠ TyObj.topOid (.arr 101 (some .int)) :=
  ⟨rfl, rfl, by decide⟩

/-- C8 as amended: the tuple's member-type list collapses duplicates by
descriptor object identity (a JavaScript `Set` of the member `type`
objects), so repeated primitive types — shared singletons — contribute one
entry, while structurally equal composite descriptors from distinct
literals each contribute one (previous theorem); an empty tuple literal is
typed as a Set of the None element type, not as a Tuple. -/
theorem c8_member_types_collapse_by_object_identity :
    (analyzeExpr rootCtx (.tupleE
        [.numLit 1 none, .numLit 2 none, .boolLit true none] none)).run
        initState =
      .ok (.tupleE
        [.numLit 1 (some IntType), .numLit 2 (some IntType),
         .boolLit true (some BooleanType)]
        (some (.tuple 100 [some .int, some .bool])),
        { initState with ctr := 101 }) ∧
    (analyzeExpr rootCtx (.tupleE [] none)).run initState =
      .ok (.tupleE [] (some (.set 100 (some NoneType))),
        { initState with ctr := 101 }) :=
  ⟨rfl, rfl⟩

/-- C9: code-bug evidence — a subscripted expression whose base is a
declared Array variable and whose index is an Integer literal (which
analysis does type as Integer, second conjunct) is nevertheless rejected,
because `SubscriptedExpression.prototype.analyze` checks the index's type
(line 476) before analyzing the index (line 478), when its type field is
still absent; so no subscript with a parser-produced index is ever
accepted. -/
theorem c9_integer_indexed_subscript_rejected :
    ((do
      addVar rootCtx "a"
        (.variable false (some (.arr 99 (some IntType))) "a")
      analyzeExpr rootCtx (.subscripted "a" (.numLit 0 none) none) :
        M Expr)).run initState =
      .error (.typeErr "Subscript is not an integer") ∧
    (analyzeExpr rootCtx (.numLit 0 none)).run initState =
      .ok (.numLit 0 (some IntType), initState) :=
  ⟨rfl, rfl⟩

/-- C10: a Return statement with an absent expression is never analyzed to
completion — `ReturnStatement.prototype.analyze` unconditionally calls
`this.expression.analyze`, a dynamic failure on a bare return — in any
context and from any state, and in particular inside a function declared
with the `leftOnRead` void marker. -/
theorem c10_bare_return_never_accepted
    (ctx : Nat) (rt : Option String) (st : St) :
    (analyzeStmt ctx (.ret none rt)).run st =
      .error (.dynamic "cannot read analyze of undefined expression") ∧
    (analyzeStmt rootCtx (.funDecl "f" [] .leftOnRead
        (.mk [.ret none none]))).run initState =
      .error (.dynamic "cannot read analyze of undefined expression") :=
  ⟨rfl, rfl⟩

end GangScript
